import Mathlib

/-!
Shallow embedding of the PC-side volume-bridge core
(`volume_controller.py`, `mqtt_client.py`, `system_monitor.py`).

Machine conventions:
* Volume levels are `ℤ` (percent points); endpoint scalars are exact `ℚ`.
* Wall-clock times are `ℚ` seconds.
* Each fallible audio-endpoint call takes a `dev : Bool` flag: `true` means
  the COM call succeeds, `false` means it raises (caught by the code).
* Python `int()` on a nonnegative scalar product is truncation toward zero,
  modelled by `pyTrunc` on `ℚ`.
-/

namespace Bridge

abbrev AppName := String

/-- Python `int(q)`: truncation of a rational toward zero. -/
def pyTrunc (q : ℚ) : ℤ :=
  Int.tdiv q.num (q.den : ℤ)

/-- `max(0, min(100, level))` from `set_volume` / `set_app_volume`. -/
def clamp (v : ℤ) : ℤ :=
  max 0 (min 100 v)

/-- Dictionary lookup on an association list keyed by process name. -/
def alookup {α : Type} : List (AppName × α) → AppName → Option α
  | [], _ => none
  | p :: t, a => if p.1 = a then some p.2 else alookup t a

/-- Dictionary value update (keys unchanged) on an association list. -/
def aupdate {α : Type} : List (AppName × α) → AppName → α → List (AppName × α)
  | [], _, _ => []
  | p :: t, a, x => (if p.1 = a then (a, x) else p) :: aupdate t a x

/-- The audio endpoint: master-volume scalar, mute flag, and the
per-process session scalars (`pycaw` sessions reachable through the
stored `ISimpleAudioVolume` controls). -/
structure AudioEndpoint where
  masterScalar : ℚ
  muted : Bool
  sessions : List (AppName × ℚ)
deriving Repr, DecidableEq

/-- State of `WindowsVolumeController`: configuration, rate-limiter
timestamps, the cached current volume, and the `app_volumes` dict
(key = process name, value = cached per-app volume). -/
structure VolCtrl where
  monitored_apps : List AppName
  update_rate_limit : ℚ
  sync_interval : ℚ
  last_update : ℚ
  current_volume : ℤ
  app_volumes : List (AppName × ℤ)
  last_sync : ℚ
deriving Repr, DecidableEq

/-- Combined state: the controller object plus the audio endpoint it drives. -/
structure Sys where
  ctrl : VolCtrl
  audio : AudioEndpoint
deriving Repr, DecidableEq

/-- `WindowsVolumeController.set_volume`: rate limit against
`last_update`, clamp to `[0,100]`, write the scalar, cache the level,
stamp `last_update`.  Returns the new state and the boolean result. -/
def set_volume (dev : Bool) (s : Sys) (now : ℚ) (level : ℤ) : Sys × Bool :=
  if now - s.ctrl.last_update < s.ctrl.update_rate_limit then (s, false)
  else if dev then
    ({ s with
        audio := { s.audio with masterScalar := (clamp level : ℚ) / 100 },
        ctrl := { s.ctrl with
                    current_volume := clamp level,
                    last_update := now } }, true)
  else (s, false)

/-- `WindowsVolumeController.get_volume`: read the master scalar and
truncate `scalar * 100`; on a device error return the cached value. -/
def get_volume (dev : Bool) (s : Sys) : ℤ :=
  if dev then pyTrunc (s.audio.masterScalar * 100) else s.ctrl.current_volume

/-- `WindowsVolumeController.mute`. -/
def muteOp (dev : Bool) (s : Sys) : Sys × Bool :=
  if dev then ({ s with audio := { s.audio with muted := true } }, true)
  else (s, false)

/-- `WindowsVolumeController.unmute`. -/
def unmuteOp (dev : Bool) (s : Sys) : Sys × Bool :=
  if dev then ({ s with audio := { s.audio with muted := false } }, true)
  else (s, false)

/-- `WindowsVolumeController.is_muted`: `bool(GetMute())`, `False` on error. -/
def is_muted_read (dev : Bool) (s : Sys) : Bool :=
  if dev then s.audio.muted else false

/-- `WindowsVolumeController.set_app_volume`: look the app up in the
`app_volumes` dict; clamp; write the session scalar through the stored
control; cache the clamped level.  No rate limiting is performed. -/
def set_app_volume (dev : Bool) (s : Sys) (a : AppName) (level : ℤ) :
    Sys × Bool :=
  if (alookup s.ctrl.app_volumes a).isSome then
    match dev, alookup s.audio.sessions a with
    | true, some _ =>
        ({ s with
            audio := { s.audio with
              sessions := aupdate s.audio.sessions a ((clamp level : ℚ) / 100) },
            ctrl := { s.ctrl with
              app_volumes := aupdate s.ctrl.app_volumes a (clamp level) } }, true)
    | _, _ => (s, false)
  else (s, false)

/-- `WindowsVolumeController.get_app_volume`: look the app up, read the
session scalar, truncate `scalar * 100`, refresh the cache; `none` when
the app is unknown or the endpoint call raises. -/
def get_app_volume (dev : Bool) (s : Sys) (a : AppName) : Sys × Option ℤ :=
  if (alookup s.ctrl.app_volumes a).isSome then
    match dev, alookup s.audio.sessions a with
    | true, some q =>
        ({ s with ctrl := { s.ctrl with
            app_volumes := aupdate s.ctrl.app_volumes a (pyTrunc (q * 100)) } },
         some (pyTrunc (q * 100)))
    | _, _ => (s, none)
  else (s, none)

/-- `WindowsVolumeController._scan_applications`: rebuild `app_volumes`
from the endpoint sessions whose process name is monitored; on a device
error the dict has just been cleared. -/
def scan_applications (dev : Bool) (s : Sys) : Sys :=
  if dev then
    let found := (s.audio.sessions.filter
      (fun p => s.ctrl.monitored_apps.contains p.1)).map
      (fun p => (p.1, pyTrunc (p.2 * 100)))
    { s with ctrl := { s.ctrl with app_volumes := found } }
  else { s with ctrl := { s.ctrl with app_volumes := [] } }

/-- Iteration body of `get_all_app_volumes` over the dict keys. -/
def get_all_app_volumes_go (dev : Bool) : Sys → List AppName →
    Sys × List (AppName × ℤ)
  | s, [] => (s, [])
  | s, a :: rest =>
      let r := get_app_volume dev s a
      let r2 := get_all_app_volumes_go dev r.1 rest
      match r.2 with
      | some v => (r2.1, (a, v) :: r2.2)
      | none => (r2.1, r2.2)

/-- `WindowsVolumeController.get_all_app_volumes`. -/
def get_all_app_volumes (dev : Bool) (s : Sys) : Sys × List (AppName × ℤ) :=
  get_all_app_volumes_go dev s (s.ctrl.app_volumes.map Prod.fst)

/-- `WindowsVolumeController.sync_volume_from_system`: rate-limit
against `last_sync`; read the system volume; report it (updating the
snapshot) only when it differs from `current_volume` by strictly more
than 1 point. -/
def sync_volume_from_system (dev : Bool) (s : Sys) (now : ℚ) :
    Sys × Option ℤ :=
  if now - s.ctrl.last_sync < s.ctrl.sync_interval then (s, none)
  else
    let sysVol := get_volume dev s
    if 1 < |sysVol - s.ctrl.current_volume| then
      ({ s with ctrl := { s.ctrl with
          current_volume := sysVol, last_sync := now } }, some sysVol)
    else
      ({ s with ctrl := { s.ctrl with last_sync := now } }, none)

/-! ## MQTT client layer (`mqtt_client.py`) -/

/-- One outbound MQTT publish performed by `MQTTVolumeClient`, tagged by
topic shape and payload content. -/
inductive Pub where
  | statusMsg (status : String) (volume : ℤ) (muted : Bool)
  | volumeTopic (v : ℤ)
  | appVolumesAll (vols : List (AppName × ℤ))
  | appVolumeStatus (app : AppName) (volume : ℤ)
  | pcVolume (v : ℤ)
  | powerEvent (event : String)
  | systemStatus
deriving Repr, DecidableEq

/-- `MQTTVolumeClient.publish_status`: retained status JSON built from a
fresh volume read and the mute flag. -/
def publish_status (dev : Bool) (s : Sys) (st : String) : Pub :=
  Pub.statusMsg st (get_volume dev s) (is_muted_read dev s)

/-- `MQTTVolumeClient._handle_volume_message`: `int(payload)` (`none`
models a `ValueError`), then `set_volume`; no publish on either path. -/
def handle_volume_message (dev : Bool) (s : Sys) (now : ℚ)
    (payload : Option ℤ) : Sys × List Pub :=
  match payload with
  | none => (s, [])
  | some v => ((set_volume dev s now v).1, [])

/-- Python `command.upper()` on the keyword payloads (ASCII). -/
def toUpperStr (s : String) : String :=
  ⟨s.data.map Char.toUpper⟩

/-- `MQTTVolumeClient.handle_command`: uppercase the payload and
dispatch the keyword.  `hasMonitor` models `self.system_monitor` being
set. -/
def handle_command (dev hasMonitor : Bool) (s : Sys) (cmd : String) :
    Sys × List Pub :=
  let c := toUpperStr cmd
  if c = "MUTE" then ((muteOp dev s).1, [])
  else if c = "UNMUTE" then ((unmuteOp dev s).1, [])
  else if c = "STATUS" then (s, [publish_status dev s "online"])
  else if c = "GETVOLUME" then (s, [Pub.volumeTopic (get_volume dev s)])
  else if c = "REFRESH_APPS" then
    let s2 := scan_applications dev s
    let r := get_all_app_volumes dev s2
    (r.1, if r.2.isEmpty then [] else [Pub.appVolumesAll r.2])
  else if c = "GET_APP_VOLUMES" then
    let r := get_all_app_volumes dev s
    (r.1, if r.2.isEmpty then [] else [Pub.appVolumesAll r.2])
  else if c = "GET_SYSTEM_INFO" then
    (s, if hasMonitor then [Pub.systemStatus] else [])
  else if c = "SLEEP" then (s, [Pub.powerEvent "sleep_requested"])
  else (s, [])

/-- Decoded JSON payload of the app-volume topic: `data.get("app")` and
`data.get("volume")`. -/
structure AppVolPayload where
  app : Option AppName
  volume : Option ℤ
deriving Repr, DecidableEq

/-- `MQTTVolumeClient.handle_app_volume_command`: the outer `none`
models a `json.JSONDecodeError`; the handler requires a truthy `app`
(present and nonempty) and a present `volume`, calls `set_app_volume`,
and publishes the requested (unclamped) volume only on success. -/
def handle_app_volume_command (dev : Bool) (s : Sys)
    (payload : Option AppVolPayload) : Sys × List Pub :=
  match payload with
  | none => (s, [])
  | some d =>
      match d.app, d.volume with
      | some a, some v =>
          if a = "" then (s, [])
          else
            let r := set_app_volume dev s a v
            if r.2 then (r.1, [Pub.appVolumeStatus a v]) else (r.1, [])
      | _, _ => (s, [])

/-- One iteration of `MQTTVolumeClient._volume_sync_loop` while
running: when connected, poll `sync_volume_from_system` and publish any
reported change on the pc-volume topic; `refreshDue` models
`int(time.time()) % 30 == 0`. -/
def volume_sync_tick (dev connected : Bool) (s : Sys) (now : ℚ)
    (refreshDue : Bool) : Sys × List Pub :=
  if connected then
    let r := sync_volume_from_system dev s now
    let s2 := if refreshDue then scan_applications dev r.1 else r.1
    match r.2 with
    | some v => (s2, [Pub.pcVolume v])
    | none => (s2, [])
  else (s, [])

/-- Result of `MQTTVolumeClient.connect`: the boolean return value and
whether a network connect toward the broker was attempted. -/
structure ConnectOutcome where
  ok : Bool
  networkAttempted : Bool
deriving Repr, DecidableEq

/-- `MQTTVolumeClient.connect`: a falsy (`none`/empty) or placeholder
broker address fails before any network call; otherwise
`client.connect` is attempted and `netOk` models its outcome
(an exception yields `False`). -/
def connect (broker : Option String) (netOk : Bool) : ConnectOutcome :=
  match broker with
  | none => ⟨false, false⟩
  | some b =>
      if b = "" ∨ b = "192.168.1.xxx" then ⟨false, false⟩
      else ⟨netOk, true⟩

/-! ## Power monitor (`system_monitor.py`) -/

/-- Mutable state of `PCSystemMonitor` relevant to power-event
detection. -/
structure MonitorState where
  last_power_state : String
  last_activity_time : ℚ
  sleep_start_time : Option ℚ
  detect_sleep_wake : Bool
deriving Repr, DecidableEq

/-- The states `detect_power_events` treats as sleep-like. -/
def sleepLikeStates : List String :=
  ["sleep", "hibernate", "idle"]

/-- The states `detect_power_events` treats as awake-like. -/
def awakeLikeStates : List String :=
  ["active", "active_high", "low_activity"]

/-- `PCSystemMonitor._get_power_state_activity`: classify from CPU%,
memory% and idle minutes since the last activity timestamp. -/
def get_power_state_activity (cpu mem now lastActivity idleThresholdMinutes : ℚ) :
    String :=
  if idleThresholdMinutes < (now - lastActivity) / 60 then "idle"
  else if cpu < 5 ∧ mem < 50 then "low_activity"
  else if 80 < cpu then "active_high"
  else "active"

/-- `PCSystemMonitor._calculate_sleep_duration`: elapsed time since
`sleep_start_time` when it is set, else the fallback 0. -/
def calculate_sleep_duration (now : ℚ) (start : Option ℚ) : ℚ :=
  match start with
  | some t => now - t
  | none => 0

/-- One event published (or side effect performed) by
`detect_power_events`. -/
inductive PowerEvt where
  | stateChange (fromState toState : String)
  | sleepDetected (sleepType : String) (idleDuration : ℚ)
  | wakeDetected (sleepDuration : ℚ)
  | volumeRepublish (v : ℤ)
  | systemStatus
deriving Repr, DecidableEq

/-- Whether an event is one of the dedicated sleep/wake events. -/
def PowerEvt.isSleepOrWake : PowerEvt → Bool
  | .sleepDetected _ _ => true
  | .wakeDetected _ => true
  | _ => false

/-- `PCSystemMonitor.detect_power_events`: one detection pass with the
freshly classified state `cur` sampled at time `now` (`vol` is the
system volume re-published on wake). -/
def detect_power_events (m : MonitorState) (cur : String) (now : ℚ)
    (vol : ℤ) : MonitorState × List PowerEvt :=
  if !m.detect_sleep_wake then (m, [])
  else if cur = m.last_power_state then (m, [])
  else
    let changeEvts := [PowerEvt.stateChange m.last_power_state cur]
    let goingToSleep := sleepLikeStates.contains cur &&
      awakeLikeStates.contains m.last_power_state
    let m1 := if goingToSleep then { m with sleep_start_time := some now }
      else m
    let sleepEvts := if goingToSleep then
        [PowerEvt.sleepDetected cur ((now - m.last_activity_time) / 60)]
      else []
    let waking := sleepLikeStates.contains m.last_power_state &&
      awakeLikeStates.contains cur
    let m2 := if waking then
        { m1 with sleep_start_time := none, last_activity_time := now }
      else m1
    let wakeEvts := if waking then
        [PowerEvt.wakeDetected (calculate_sleep_duration now m1.sleep_start_time),
         PowerEvt.volumeRepublish vol, PowerEvt.systemStatus]
      else []
    ({ m2 with last_power_state := cur }, changeEvts ++ sleepEvts ++ wakeEvts)

/-- Run `detect_power_events` over a trajectory of sampled
(state, time) pairs, concatenating the emitted events. -/
def runMonitor (m : MonitorState) (vol : ℤ) :
    List (String × ℚ) → MonitorState × List PowerEvt
  | [] => (m, [])
  | (st, t) :: rest =>
      let r := detect_power_events m st t vol
      let r2 := runMonitor r.1 vol rest
      (r2.1, r.2 ++ r2.2)

/-! ## Concrete states used as evaluation witnesses -/

/-- A small concrete controller state: one monitored app with a live
session, system volume 50%. -/
def sampleSys : Sys :=
  { ctrl := { monitored_apps := ["chrome.exe"], update_rate_limit := 1/10,
              sync_interval := 2, last_update := 0, current_volume := 50,
              app_volumes := [("chrome.exe", 40)], last_sync := 0 },
    audio := { masterScalar := 1/2, muted := false,
               sessions := [("chrome.exe", 2/5)] } }

/-- Like `sampleSys` but the endpoint has drifted to 80% while the
snapshot still says 50%. -/
def driftSys : Sys :=
  { sampleSys with audio := { sampleSys.audio with masterScalar := 4/5 } }

/-! ## Helper lemmas -/

theorem pyTrunc_intCast (n : ℤ) : pyTrunc (n : ℚ) = n := by
  simp [pyTrunc]

theorem pyTrunc_div_mul (n : ℤ) : pyTrunc ((n : ℚ) / 100 * 100) = n := by
  rw [div_mul_cancel₀ _ (by norm_num : (100 : ℚ) ≠ 0)]
  exact pyTrunc_intCast n

theorem clamp_of_range {v : ℤ} (h0 : 0 ≤ v) (h100 : v ≤ 100) :
    clamp v = v := by
  simp only [clamp]
  omega

theorem clamp_ne_of_outside {v : ℤ} (h : v < 0 ∨ 100 < v) :
    clamp v ≠ v := by
  simp only [clamp]
  omega

theorem alookup_aupdate_self {α : Type} (l : List (AppName × α))
    (a : AppName) (x : α) (h : (alookup l a).isSome) :
    alookup (aupdate l a x) a = some x := by
  induction l with
  | nil => simp [alookup] at h
  | cons p t ih =>
      by_cases hp : p.1 = a
      · simp [alookup, aupdate, hp]
      · simp [alookup, aupdate, hp] at h ⊢
        exact ih h

theorem alookup_aupdate_ne {α : Type} (l : List (AppName × α))
    (a b : AppName) (x : α) (hne : b ≠ a) :
    alookup (aupdate l a x) b = alookup l b := by
  induction l with
  | nil => simp [aupdate]
  | cons p t ih =>
      by_cases hp : p.1 = a
      · simp [alookup, aupdate, hp, hne, Ne.symm hne, ih]
      · simp [alookup, aupdate, hp, ih]

theorem set_volume_success_iff (dev : Bool) (s : Sys) (now : ℚ) (v : ℤ) :
    (set_volume dev s now v).2 = true ↔
      ¬ now - s.ctrl.last_update < s.ctrl.update_rate_limit ∧ dev = true := by
  unfold set_volume
  by_cases h : now - s.ctrl.last_update < s.ctrl.update_rate_limit
  · simp [h]
  · cases dev <;> simp [h]

theorem set_volume_success_eq (s : Sys) (now : ℚ) (v : ℤ)
    (h : ¬ now - s.ctrl.last_update < s.ctrl.update_rate_limit) :
    set_volume true s now v =
      ({ s with
          audio := { s.audio with masterScalar := (clamp v : ℚ) / 100 },
          ctrl := { s.ctrl with
                      current_volume := clamp v,
                      last_update := now } }, true) := by
  unfold set_volume
  simp [h]

theorem set_volume_reject_eq (dev : Bool) (s : Sys) (now : ℚ) (v : ℤ)
    (h : now - s.ctrl.last_update < s.ctrl.update_rate_limit) :
    set_volume dev s now v = (s, false) := by
  unfold set_volume
  simp [h]

theorem set_app_volume_success_iff (dev : Bool) (s : Sys) (a : AppName)
    (v : ℤ) :
    (set_app_volume dev s a v).2 = true ↔
      (alookup s.ctrl.app_volumes a).isSome ∧ dev = true ∧
        (alookup s.audio.sessions a).isSome := by
  unfold set_app_volume
  by_cases h1 : (alookup s.ctrl.app_volumes a).isSome
  · rw [if_pos h1]
    cases dev <;> cases hl : alookup s.audio.sessions a <;> simp [h1, hl]
  · rw [if_neg h1]
    simp [h1]

theorem set_app_volume_success_eq (s : Sys) (a : AppName) (v : ℤ)
    (h1 : (alookup s.ctrl.app_volumes a).isSome)
    (q : ℚ) (h2 : alookup s.audio.sessions a = some q) :
    set_app_volume true s a v =
      ({ s with
          audio := { s.audio with
            sessions := aupdate s.audio.sessions a ((clamp v : ℚ) / 100) },
          ctrl := { s.ctrl with
            app_volumes := aupdate s.ctrl.app_volumes a (clamp v) } }, true) := by
  unfold set_app_volume
  rw [if_pos h1, h2]

theorem set_app_volume_not_found (dev : Bool) (s : Sys) (a : AppName)
    (v : ℤ) (h : ¬ (alookup s.ctrl.app_volumes a).isSome) :
    set_app_volume dev s a v = (s, false) := by
  unfold set_app_volume
  rw [if_neg h]

/-! ## Claims -/

/-- Claim C1: for every integer volume value delivered on the
volume-set topic, if the set is applied (not rate-limited and the
endpoint call succeeds), the system volume applied to the audio
endpoint equals `clamp(v, 0, 100)`. -/
theorem C1_applied_volume_is_clamped (dev : Bool) (s : Sys) (now : ℚ)
    (v : ℤ) (h : (set_volume dev s now v).2 = true) :
    get_volume true (handle_volume_message dev s now (some v)).1 = clamp v ∧
    (handle_volume_message dev s now (some v)).1.ctrl.current_volume =
      clamp v := by
  rcases (set_volume_success_iff dev s now v).1 h with ⟨hrl, hdev⟩
  subst hdev
  simp only [handle_volume_message, set_volume_success_eq s now v hrl]
  refine ⟨?_, ?_⟩
  · simpa [get_volume] using pyTrunc_div_mul (clamp v)
  · trivial

/-- Witness for C1 at a concrete input: an out-of-range request 150 is
applied as 100. -/
theorem C1_witness :
    get_volume true (handle_volume_message true sampleSys 1 (some 150)).1 =
      clamp 150 ∧
    (handle_volume_message true sampleSys 1 (some 150)).1.ctrl.current_volume =
      clamp 150 :=
  C1_applied_volume_is_clamped true sampleSys 1 150
    (by norm_num [set_volume, sampleSys])

/-- Claim C2: a second system-volume set arriving strictly less than
`update_rate_limit` seconds after the previously applied set is
rejected: it returns `false` and leaves the whole state (audio endpoint
included) unchanged. -/
theorem C2_second_set_rejected (dev₁ dev₂ : Bool) (s : Sys) (t₁ t₂ : ℚ)
    (v₁ v₂ : ℤ)
    (h1 : (set_volume dev₁ s t₁ v₁).2 = true)
    (h2 : t₂ - t₁ < s.ctrl.update_rate_limit) :
    (set_volume dev₂ (set_volume dev₁ s t₁ v₁).1 t₂ v₂).2 = false ∧
    (set_volume dev₂ (set_volume dev₁ s t₁ v₁).1 t₂ v₂).1 =
      (set_volume dev₁ s t₁ v₁).1 := by
  rcases (set_volume_success_iff dev₁ s t₁ v₁).1 h1 with ⟨hrl, hdev⟩
  subst hdev
  rw [set_volume_success_eq s t₁ v₁ hrl]
  rw [set_volume_reject_eq dev₂ _ t₂ v₂ (by simpa using h2)]
  exact ⟨rfl, rfl⟩

/-- Witness for C2 at a concrete input: a set 0.05 s after an applied
set is rejected with no state change. -/
theorem C2_witness :
    (set_volume true (set_volume true sampleSys 1 30).1 (1 + 1/20) 60).2 =
      false ∧
    (set_volume true (set_volume true sampleSys 1 30).1 (1 + 1/20) 60).1 =
      (set_volume true sampleSys 1 30).1 :=
  C2_second_set_rejected true true sampleSys 1 (1 + 1/20) 30 60
    (by norm_num [set_volume, sampleSys])
    (by norm_num [sampleSys])

theorem set_app_volume_snd (dev : Bool) (s : Sys) (a : AppName) (l : ℤ) :
    (set_app_volume dev s a l).2 =
      ((alookup s.ctrl.app_volumes a).isSome &&
        (dev && (alookup s.audio.sessions a).isSome)) := by
  unfold set_app_volume
  by_cases h1 : (alookup s.ctrl.app_volumes a).isSome
  · rw [if_pos h1]
    cases dev <;> cases hl : alookup s.audio.sessions a <;> simp [h1, hl]
  · rw [if_neg h1]
    simp at h1
    simp [h1]

theorem set_volume_preserves_apps (dev : Bool) (s : Sys) (t : ℚ) (v : ℤ) :
    (set_volume dev s t v).1.ctrl.app_volumes = s.ctrl.app_volumes ∧
    (set_volume dev s t v).1.audio.sessions = s.audio.sessions := by
  unfold set_volume
  by_cases h : t - s.ctrl.last_update < s.ctrl.update_rate_limit
  · simp [h]
  · cases dev <;> simp [h]

theorem set_app_volume_preserves_last_update (dev : Bool) (s : Sys)
    (a : AppName) (l : ℤ) :
    (set_app_volume dev s a l).1.ctrl.last_update = s.ctrl.last_update := by
  unfold set_app_volume
  by_cases h1 : (alookup s.ctrl.app_volumes a).isSome
  · rw [if_pos h1]
    cases dev <;> cases hl : alookup s.audio.sessions a <;> simp
  · rw [if_neg h1]

theorem set_app_volume_preserves_lookup_ne (dev : Bool) (s : Sys)
    (b : AppName) (m : ℤ) (a : AppName) (hab : a ≠ b) :
    alookup (set_app_volume dev s b m).1.ctrl.app_volumes a =
      alookup s.ctrl.app_volumes a ∧
    alookup (set_app_volume dev s b m).1.audio.sessions a =
      alookup s.audio.sessions a := by
  unfold set_app_volume
  by_cases h1 : (alookup s.ctrl.app_volumes b).isSome
  · rw [if_pos h1]
    cases dev <;> cases hl : alookup s.audio.sessions b <;>
      simp [alookup_aupdate_ne _ _ _ _ hab]
  · rw [if_neg h1]
    exact ⟨rfl, rfl⟩

/-- Counterexample to claim C3 as stated: with `update_rate_limit`
0.1 s, two back-to-back per-app sets on the same app (zero seconds
apart, hence less than `update_rate_limit`) are both applied — the
second returns success and changes the endpoint session, instead of
being rejected.  `set_app_volume` consults no clock at all. -/
theorem C3_counterexample :
    (set_app_volume true sampleSys "chrome.exe" 30).2 = true ∧
    (set_app_volume true (set_app_volume true sampleSys "chrome.exe" 30).1
        "chrome.exe" 60).2 = true ∧
    alookup (set_app_volume true
        (set_app_volume true sampleSys "chrome.exe" 30).1
        "chrome.exe" 60).1.audio.sessions "chrome.exe" = some (3/5) := by
  norm_num [set_app_volume, sampleSys, alookup, aupdate, clamp]

/-- Claim C3 (amended): the inbound rate limiter exists only for the
system target.  Distinct targets never interfere: a system set does not
change whether an app set is accepted, an app set leaves the system
limiter timestamp untouched, and a set to one app does not change
whether a set to a different app is accepted.  But per-app sets are not
rate-limited at all: immediately after an applied per-app set, another
set to the same app is applied as well. -/
theorem C3_per_target_limiter (s : Sys) (devS devA devB : Bool)
    (t : ℚ) (v l l' m : ℤ) (a b : AppName) (hab : a ≠ b)
    (h : (set_app_volume true s a l).2 = true) :
    ((set_app_volume devA (set_volume devS s t v).1 a l).2 =
      (set_app_volume devA s a l).2) ∧
    ((set_app_volume devA s a l).1.ctrl.last_update =
      s.ctrl.last_update) ∧
    ((set_app_volume devA (set_app_volume devB s b m).1 a l).2 =
      (set_app_volume devA s a l).2) ∧
    ((set_app_volume true (set_app_volume true s a l).1 a l').2 = true) := by
  refine ⟨?_, set_app_volume_preserves_last_update devA s a l, ?_, ?_⟩
  · rw [set_app_volume_snd, set_app_volume_snd,
        (set_volume_preserves_apps devS s t v).1,
        (set_volume_preserves_apps devS s t v).2]
  · rw [set_app_volume_snd, set_app_volume_snd,
        (set_app_volume_preserves_lookup_ne devB s b m a hab).1,
        (set_app_volume_preserves_lookup_ne devB s b m a hab).2]
  · rcases (set_app_volume_success_iff true s a l).1 h with ⟨h1, -, h3⟩
    rcases Option.isSome_iff_exists.1 h3 with ⟨q, hq⟩
    rw [set_app_volume_success_eq s a l h1 q hq]
    rw [set_app_volume_snd]
    simp [alookup_aupdate_self _ _ _ h1, alookup_aupdate_self _ _ _ h3]

/-- Witness for the amended C3 at concrete inputs. -/
theorem C3_witness :
    ((set_app_volume true (set_volume true sampleSys 1 20).1
        "chrome.exe" 30).2 =
      (set_app_volume true sampleSys "chrome.exe" 30).2) ∧
    ((set_app_volume true sampleSys "chrome.exe" 30).1.ctrl.last_update =
      sampleSys.ctrl.last_update) ∧
    ((set_app_volume true (set_app_volume true sampleSys "other.exe" 10).1
        "chrome.exe" 30).2 =
      (set_app_volume true sampleSys "chrome.exe" 30).2) ∧
    ((set_app_volume true (set_app_volume true sampleSys "chrome.exe" 30).1
        "chrome.exe" 60).2 = true) :=
  C3_per_target_limiter sampleSys true true true 1 20 30 60 10
    "chrome.exe" "other.exe" (by decide)
    (by norm_num [set_app_volume, sampleSys, alookup])

/-- Claim C4: a sync-loop tick publishes on the pc-volume topic only
when the freshly read system volume differs from the last-published
snapshot value by strictly more than 1 point; the published value is
that fresh read. -/
theorem C4_sync_publish_threshold (dev conn refreshDue : Bool) (s : Sys)
    (now : ℚ) (v : ℤ)
    (h : Pub.pcVolume v ∈ (volume_sync_tick dev conn s now refreshDue).2) :
    1 < |v - s.ctrl.current_volume| ∧ v = get_volume dev s := by
  unfold volume_sync_tick sync_volume_from_system at h
  cases conn with
  | false => simp at h
  | true =>
      by_cases hrl : now - s.ctrl.last_sync < s.ctrl.sync_interval
      · simp [hrl] at h
      · by_cases hth : 1 < |get_volume dev s - s.ctrl.current_volume|
        · simp [hrl, hth] at h
          exact ⟨h ▸ hth, h⟩
        · simp [hrl, hth] at h

/-- Witness for C4 at a concrete input: external drift from 50 to 80 is
published, and the delta 30 indeed exceeds 1. -/
theorem C4_witness :
    1 < |(80:ℤ) - driftSys.ctrl.current_volume| ∧
    (80:ℤ) = get_volume true driftSys :=
  C4_sync_publish_threshold true true false driftSys 10 80
    (by norm_num [volume_sync_tick, sync_volume_from_system, get_volume,
        driftSys, sampleSys, pyTrunc])

theorem handle_command_MUTE (dev hm : Bool) (s : Sys) :
    handle_command dev hm s "MUTE" = ((muteOp dev s).1, []) := by
  have h : toUpperStr "MUTE" = "MUTE" := by decide
  simp [handle_command, h]

theorem handle_command_UNMUTE (dev hm : Bool) (s : Sys) :
    handle_command dev hm s "UNMUTE" = ((unmuteOp dev s).1, []) := by
  have h : toUpperStr "UNMUTE" = "UNMUTE" := by decide
  simp [handle_command, h]

/-- Counterexample to claim C5 as stated: on a concrete state a MUTE
command whose endpoint call succeeds produces zero confirmation
publishes, not exactly one. -/
theorem C5_counterexample :
    (muteOp true sampleSys).2 = true ∧
    (handle_command true true sampleSys "MUTE").2 = [] := by
  refine ⟨rfl, ?_⟩
  rw [handle_command_MUTE]

/-- Claim C5 (amended): among the inbound mutating commands only a
successful per-app volume set produces a confirmation publish (exactly
one app-volume-status message); successful MUTE, UNMUTE and
bare-integer system-volume sets publish nothing, and every failed
mutating command publishes nothing. -/
theorem C5_confirmation_publishes (dev hm : Bool) (s : Sys) (now : ℚ)
    (p : Option ℤ) (ap : Option AppVolPayload) :
    (handle_command dev hm s "MUTE").2 = [] ∧
    (handle_command dev hm s "UNMUTE").2 = [] ∧
    (handle_volume_message dev s now p).2 = [] ∧
    ((handle_app_volume_command dev s ap).2 = [] ∨
      ∃ a v, (set_app_volume dev s a v).2 = true ∧
        (handle_app_volume_command dev s ap).2 =
          [Pub.appVolumeStatus a v]) := by
  refine ⟨by rw [handle_command_MUTE], by rw [handle_command_UNMUTE],
    ?_, ?_⟩
  · cases p <;> simp [handle_volume_message]
  · match ap with
    | none => exact Or.inl rfl
    | some ⟨none, _⟩ => exact Or.inl rfl
    | some ⟨some a, none⟩ => exact Or.inl rfl
    | some ⟨some a, some v⟩ =>
        by_cases ha : a = ""
        · exact Or.inl (by simp [handle_app_volume_command, ha])
        · cases hsucc : (set_app_volume dev s a v).2 with
          | false =>
              exact Or.inl (by simp [handle_app_volume_command, ha, hsucc])
          | true =>
              exact Or.inr ⟨a, v, hsucc,
                by simp [handle_app_volume_command, ha, hsucc]⟩

/-- Claim C6: an app-volume payload missing the app or volume field, or
naming an app that is not currently monitored, causes no audio-endpoint
change and no publish: the handler returns the state unchanged with no
confirmation. -/
theorem C6_invalid_app_command_dropped (dev : Bool) (s : Sys)
    (d : AppVolPayload)
    (h : d.app = none ∨ d.volume = none ∨
      ∃ a, d.app = some a ∧ (alookup s.ctrl.app_volumes a).isNone) :
    handle_app_volume_command dev s (some d) = (s, []) := by
  obtain ⟨appf, volf⟩ := d
  rcases h with h | h | h
  · simp only at h
    subst h
    cases volf <;> rfl
  · simp only at h
    subst h
    cases appf <;> rfl
  · obtain ⟨a, ha, hn⟩ := h
    simp only at ha hn
    subst ha
    cases volf with
    | none => rfl
    | some v =>
        by_cases he : a = ""
        · simp [handle_app_volume_command, he]
        · have hns : ¬ (alookup s.ctrl.app_volumes a).isSome := by
            simp only [Option.isNone_iff_eq_none] at hn
            simp [hn]
          simp [handle_app_volume_command, he,
            set_app_volume_not_found dev s a v hns]

/-- Witness for C6: the spec scenario `{"app": "missing.exe",
"volume": 50}` is dropped with no endpoint call and no publish. -/
theorem C6_witness :
    handle_app_volume_command true sampleSys
      (some ⟨some "missing.exe", some 50⟩) = (sampleSys, []) :=
  C6_invalid_app_command_dropped true sampleSys ⟨some "missing.exe", some 50⟩
    (Or.inr (Or.inr ⟨"missing.exe", rfl, by decide⟩))

/-- Claim C7: a missing, empty or placeholder broker address makes
`connect` fail immediately, with no network I/O attempted. -/
theorem C7_connect_placeholder_fails (b : Option String) (net : Bool)
    (h : b = none ∨ b = some "" ∨ b = some "192.168.1.xxx") :
    connect b net = ⟨false, false⟩ := by
  rcases h with rfl | rfl | rfl
  · rfl
  · simp [connect]
  · simp [connect]

/-- Witness for C7: the stock placeholder address fails locally even
when the network would accept the connection. -/
theorem C7_witness :
    connect (some "192.168.1.xxx") true = ⟨false, false⟩ :=
  C7_connect_placeholder_fails (some "192.168.1.xxx") true
    (Or.inr (Or.inr rfl))

/-- Claim C8: setting a monitored app's volume to an in-range value V
and then reading it back (with no intervening external change) returns
exactly V. -/
theorem C8_app_volume_roundtrip (s : Sys) (a : AppName) (v : ℤ)
    (h0 : 0 ≤ v) (h100 : v ≤ 100)
    (h : (set_app_volume true s a v).2 = true) :
    (get_app_volume true (set_app_volume true s a v).1 a).2 = some v := by
  rcases (set_app_volume_success_iff true s a v).1 h with ⟨h1, -, h3⟩
  rcases Option.isSome_iff_exists.1 h3 with ⟨q, hq⟩
  rw [set_app_volume_success_eq s a v h1 q hq]
  have hk := alookup_aupdate_self s.ctrl.app_volumes a (clamp v) h1
  have hs := alookup_aupdate_self s.audio.sessions a ((clamp v : ℚ) / 100) h3
  simp [get_app_volume, hk, hs, pyTrunc_div_mul, pyTrunc_intCast]
  exact clamp_of_range h0 h100

/-- Witness for C8 at a concrete input: set 70, read back 70. -/
theorem C8_witness :
    (get_app_volume true
        (set_app_volume true sampleSys "chrome.exe" 70).1 "chrome.exe").2 =
      some 70 :=
  C8_app_volume_roundtrip sampleSys "chrome.exe" 70 (by norm_num)
    (by norm_num) (by norm_num [set_app_volume, sampleSys, alookup])

/-- Claim C10: a successful per-app set confirms the requested value V
verbatim on the app-volume-status topic while the endpoint actually
holds `clamp(V, 0, 100)`; the two differ whenever V is out of range. -/
theorem C10_confirmed_vs_applied (s : Sys) (a : AppName) (v : ℤ)
    (ha : a ≠ "")
    (h : (set_app_volume true s a v).2 = true) :
    (handle_app_volume_command true s (some ⟨some a, some v⟩)).2 =
      [Pub.appVolumeStatus a v] ∧
    (get_app_volume true
        (handle_app_volume_command true s (some ⟨some a, some v⟩)).1 a).2 =
      some (clamp v) ∧
    ((v < 0 ∨ 100 < v) → clamp v ≠ v) := by
  have hh : handle_app_volume_command true s (some ⟨some a, some v⟩) =
      ((set_app_volume true s a v).1, [Pub.appVolumeStatus a v]) := by
    simp [handle_app_volume_command, ha, h]
  refine ⟨by rw [hh], ?_, fun hout => clamp_ne_of_outside hout⟩
  rw [hh]
  rcases (set_app_volume_success_iff true s a v).1 h with ⟨h1, -, h3⟩
  rcases Option.isSome_iff_exists.1 h3 with ⟨q, hq⟩
  rw [set_app_volume_success_eq s a v h1 q hq]
  have hk := alookup_aupdate_self s.ctrl.app_volumes a (clamp v) h1
  have hs := alookup_aupdate_self s.audio.sessions a ((clamp v : ℚ) / 100) h3
  simp [get_app_volume, hk, hs, pyTrunc_div_mul, pyTrunc_intCast]

/-- Witness for C10 at a concrete input: requested 150 is confirmed as
150 but applied as 100. -/
theorem C10_witness :
    (handle_app_volume_command true sampleSys
        (some ⟨some "chrome.exe", some 150⟩)).2 =
      [Pub.appVolumeStatus "chrome.exe" 150] ∧
    (get_app_volume true
        (handle_app_volume_command true sampleSys
          (some ⟨some "chrome.exe", some 150⟩)).1 "chrome.exe").2 =
      some (clamp 150) ∧
    (((150:ℤ) < 0 ∨ (100:ℤ) < 150) → clamp 150 ≠ 150) :=
  C10_confirmed_vs_applied sampleSys "chrome.exe" 150 (by decide)
    (by norm_num [set_app_volume, sampleSys, alookup])

theorem awake_mem_cases {x : String} (h : x ∈ awakeLikeStates) :
    x = "active" ∨ x = "active_high" ∨ x = "low_activity" := by
  simpa [awakeLikeStates] using h

theorem sleep_contains_of_awake {x : String} (h : x ∈ awakeLikeStates) :
    sleepLikeStates.contains x = false := by
  rcases awake_mem_cases h with rfl | rfl | rfl <;> decide

theorem awake_contains_of_awake {x : String} (h : x ∈ awakeLikeStates) :
    awakeLikeStates.contains x = true := by
  rcases awake_mem_cases h with rfl | rfl | rfl <;> decide

theorem awake_ne_idle {x : String} (h : x ∈ awakeLikeStates) :
    x ≠ "idle" := by
  rcases awake_mem_cases h with rfl | rfl | rfl <;> decide

theorem sleep_contains_idle : sleepLikeStates.contains "idle" = true := by
  decide

theorem not_mem_sleep_of_awake {x : String} (h : x ∈ awakeLikeStates) :
    x ∉ sleepLikeStates := by
  rcases awake_mem_cases h with rfl | rfl | rfl <;> decide

theorem idle_mem_sleep : "idle" ∈ sleepLikeStates := by decide

theorem idle_not_mem_awake : "idle" ∉ awakeLikeStates := by decide

theorem detect_step_awake (m : MonitorState) (cur : String) (t : ℚ) (v : ℤ)
    (hdet : m.detect_sleep_wake = true)
    (hl : m.last_power_state ∈ awakeLikeStates)
    (hc : cur ∈ awakeLikeStates) :
    (detect_power_events m cur t v).1 = { m with last_power_state := cur } ∧
    (detect_power_events m cur t v).2.filter PowerEvt.isSleepOrWake = [] := by
  obtain ⟨lps, lat, sst, dsw⟩ := m
  simp only at hdet hl
  subst hdet
  by_cases he : cur = lps
  · subst he
    simp [detect_power_events]
  · simp [detect_power_events, he, not_mem_sleep_of_awake hc,
      not_mem_sleep_of_awake hl, PowerEvt.isSleepOrWake]

theorem detect_step_to_idle (m : MonitorState) (t : ℚ) (v : ℤ)
    (hdet : m.detect_sleep_wake = true)
    (hl : m.last_power_state ∈ awakeLikeStates) :
    detect_power_events m "idle" t v =
      ({ m with sleep_start_time := some t, last_power_state := "idle" },
       [PowerEvt.stateChange m.last_power_state "idle",
        PowerEvt.sleepDetected "idle" ((t - m.last_activity_time) / 60)]) := by
  obtain ⟨lps, lat, sst, dsw⟩ := m
  simp only at hdet hl
  subst hdet
  have hne : ¬ ("idle" = lps) := fun hh => awake_ne_idle hl hh.symm
  simp [detect_power_events, hne, not_mem_sleep_of_awake hl, hl,
    idle_mem_sleep, idle_not_mem_awake]

theorem detect_step_idle_idle (m : MonitorState) (t : ℚ) (v : ℤ)
    (hl : m.last_power_state = "idle") :
    detect_power_events m "idle" t v = (m, []) := by
  cases hdet : m.detect_sleep_wake <;>
    simp [detect_power_events, hdet, hl]

theorem detect_step_wake (m : MonitorState) (cur : String) (t : ℚ) (v : ℤ)
    (t₀ : ℚ) (hdet : m.detect_sleep_wake = true)
    (hl : m.last_power_state = "idle")
    (hc : cur ∈ awakeLikeStates)
    (hss : m.sleep_start_time = some t₀) :
    detect_power_events m cur t v =
      ({ m with
          sleep_start_time := none,
          last_activity_time := t,
          last_power_state := cur },
       [PowerEvt.stateChange "idle" cur,
        PowerEvt.wakeDetected (t - t₀),
        PowerEvt.volumeRepublish v, PowerEvt.systemStatus]) := by
  obtain ⟨lps, lat, sst, dsw⟩ := m
  simp only at hdet hl hss
  subst hdet
  subst hl
  subst hss
  have hne : ¬ (cur = "idle") := awake_ne_idle hc
  simp [detect_power_events, hne, not_mem_sleep_of_awake hc, hc,
    idle_mem_sleep, idle_not_mem_awake, calculate_sleep_duration]

theorem runMonitor_append (m : MonitorState) (v : ℤ)
    (xs ys : List (String × ℚ)) :
    runMonitor m v (xs ++ ys) =
      ((runMonitor (runMonitor m v xs).1 v ys).1,
       (runMonitor m v xs).2 ++ (runMonitor (runMonitor m v xs).1 v ys).2) := by
  induction xs generalizing m with
  | nil => simp [runMonitor]
  | cons p t ih =>
      obtain ⟨st, tm⟩ := p
      simp [runMonitor, ih, List.append_assoc]

theorem runMonitor_awake (v : ℤ) (seg : List (String × ℚ)) :
    ∀ m : MonitorState, m.detect_sleep_wake = true →
      m.last_power_state ∈ awakeLikeStates →
      (∀ p ∈ seg, p.1 ∈ awakeLikeStates) →
      (runMonitor m v seg).1.detect_sleep_wake = true ∧
      (runMonitor m v seg).1.last_power_state ∈ awakeLikeStates ∧
      (runMonitor m v seg).1.sleep_start_time = m.sleep_start_time ∧
      (runMonitor m v seg).2.filter PowerEvt.isSleepOrWake = [] := by
  induction seg with
  | nil => exact fun m h1 h2 _ => ⟨h1, h2, rfl, rfl⟩
  | cons p t ih =>
      intro m h1 h2 hall
      obtain ⟨st, tm⟩ := p
      have hst : st ∈ awakeLikeStates := hall (st, tm) (by simp)
      have hstep := detect_step_awake m st tm v h1 h2 hst
      have ih' := ih { m with last_power_state := st } h1 hst
        (fun q hq => hall q (List.mem_cons_of_mem _ hq))
      simp only [runMonitor, hstep.1]
      refine ⟨ih'.1, ih'.2.1, ih'.2.2.1, ?_⟩
      rw [List.filter_append, hstep.2, ih'.2.2.2]
      rfl

theorem runMonitor_idle (v : ℤ) (seg : List (String × ℚ)) :
    ∀ m : MonitorState, m.last_power_state = "idle" →
      (∀ p ∈ seg, p.1 = "idle") →
      runMonitor m v seg = (m, []) := by
  induction seg with
  | nil => exact fun m _ _ => rfl
  | cons p t ih =>
      intro m hl hall
      obtain ⟨st, tm⟩ := p
      have hst : st = "idle" := hall (st, tm) (by simp)
      subst hst
      simp only [runMonitor, detect_step_idle_idle m tm v hl]
      rw [ih m hl (fun q hq => hall q (List.mem_cons_of_mem _ hq))]
      rfl

/-- Claim C9: along a trajectory that stays awake-like, goes idle at
time `t₁`, stays idle, and returns to an awake-like state at time
`t₂ ≥ t₁`, the monitor emits exactly one sleep-detected and exactly one
wake-detected event, in that order, and the wake event's sleep duration
`t₂ - t₁` is nonnegative. -/
theorem C9_sleep_wake_cycle (m : MonitorState) (vol : ℤ)
    (seg1 rest2 rest3 : List (String × ℚ)) (t₁ t₂ : ℚ) (a₃ : String)
    (hdet : m.detect_sleep_wake = true)
    (hlast : m.last_power_state ∈ awakeLikeStates)
    (h1 : ∀ p ∈ seg1, p.1 ∈ awakeLikeStates)
    (h2 : ∀ p ∈ rest2, p.1 = "idle")
    (ha3 : a₃ ∈ awakeLikeStates)
    (h3 : ∀ p ∈ rest3, p.1 ∈ awakeLikeStates)
    (ht : t₁ ≤ t₂) :
    ∃ i, (runMonitor m vol
        (seg1 ++ ("idle", t₁) :: (rest2 ++ (a₃, t₂) :: rest3))).2.filter
        PowerEvt.isSleepOrWake =
      [PowerEvt.sleepDetected "idle" i,
       PowerEvt.wakeDetected (t₂ - t₁)] ∧
      0 ≤ t₂ - t₁ := by
  obtain ⟨g1det, g1last, g1ss, g1filter⟩ :=
    runMonitor_awake vol seg1 m hdet hlast h1
  refine ⟨(t₁ - (runMonitor m vol seg1).1.last_activity_time) / 60, ?_,
    by linarith⟩
  rw [runMonitor_append, List.filter_append, g1filter]
  set M1 := (runMonitor m vol seg1).1 with hM1
  simp only [runMonitor]
  rw [detect_step_to_idle M1 t₁ vol g1det g1last]
  rw [runMonitor_append, runMonitor_idle vol rest2 _ rfl h2]
  simp only [runMonitor]
  rw [detect_step_wake
      { last_power_state := "idle", last_activity_time := M1.last_activity_time,
        sleep_start_time := some t₁, detect_sleep_wake := M1.detect_sleep_wake }
      a₃ t₂ vol t₁ g1det rfl ha3 rfl]
  obtain ⟨g3det, g3last, g3ss, g3filter⟩ :=
    runMonitor_awake vol rest3
      { last_power_state := a₃, last_activity_time := t₂,
        sleep_start_time := none, detect_sleep_wake := M1.detect_sleep_wake }
      g1det ha3 h3
  simp [List.filter_append, g3filter, PowerEvt.isSleepOrWake]

/-- Witness for C9 at a concrete trajectory: active at start, idle at
t=5, active again at t=9: one sleep event then one wake event with
sleep duration 4. -/
theorem C9_witness :
    ∃ i, (runMonitor ⟨"active", 0, none, true⟩ 50
        ([] ++ ("idle", (5:ℚ)) :: ([] ++ ("active", (9:ℚ)) :: []))).2.filter
        PowerEvt.isSleepOrWake =
      [PowerEvt.sleepDetected "idle" i,
       PowerEvt.wakeDetected ((9:ℚ) - 5)] ∧
      (0:ℚ) ≤ (9:ℚ) - 5 :=
  C9_sleep_wake_cycle ⟨"active", 0, none, true⟩ 50 [] [] [] 5 9 "active"
    rfl (by decide)
    (fun p hp => absurd hp (List.not_mem_nil p))
    (fun p hp => absurd hp (List.not_mem_nil p))
    (by decide)
    (fun p hp => absurd hp (List.not_mem_nil p))
    (by norm_num)

end Bridge
